import Mathlib

/-
Verification of the webhook relay endpoint in src/main.py
(PetPadi/telex-zendesk-integration).

The endpoint `zendesk_integration` receives a Zendesk webhook as JSON,
extracts ticket fields with lenient defaults, formats a chat message,
POSTs it to the Telex webhook URL once, and maps Python exceptions to
HTTP responses (KeyError to 400, httpx.RequestError to 500, any other
exception to 500).  The embedding below models the JSON values the
handler manipulates, the Python dynamic-typing failure modes it can hit
(AttributeError on `.get` of a non-dict, json.JSONDecodeError on a
non-JSON body), and the single outbound HTTP call as an oracle.
-/

namespace TelexZendesk

/-- JSON values as Python represents them after `request.json()`.
Numbers are modelled as integers (no claim involves fractional JSON
numbers); objects are association lists with the (unique) keys produced
by the Python JSON decoder. -/
inductive Json where
  | null
  | bool (b : Bool)
  | num (n : Int)
  | str (s : String)
  | arr (elems : List Json)
  | obj (fields : List (String × Json))

/-- The single-quote character, written via its code point. -/
def sq : String := String.singleton (Char.ofNat 39)

/-- Python truthiness (`if not ticket:`): None, False, 0, empty string,
empty list and empty dict are falsy; everything else is truthy. -/
def pyTruthy : Json → Bool
  | .null => false
  | .bool b => b
  | .num n => n != 0
  | .str s => s != ""
  | .arr elems => !elems.isEmpty
  | .obj fields => !fields.isEmpty

/-- Python type name of a JSON value, as it appears in AttributeError
messages. -/
def pyTypeName : Json → String
  | .null => "NoneType"
  | .bool _ => "bool"
  | .num _ => "int"
  | .str _ => "str"
  | .arr _ => "list"
  | .obj _ => "dict"

mutual

/-- Python `repr` of a JSON value (string escaping inside nested reprs is
simplified to plain single quotes). -/
def pyRepr : Json → String
  | .null => "None"
  | .bool true => "True"
  | .bool false => "False"
  | .num n => toString n
  | .str s => sq ++ s ++ sq
  | .arr elems => "[" ++ pyReprList elems ++ "]"
  | .obj fields => "\x7b" ++ pyReprFields fields ++ "\x7d"

/-- Comma-separated reprs of list elements. -/
def pyReprList : List Json → String
  | [] => ""
  | [j] => pyRepr j
  | j :: rest => pyRepr j ++ ", " ++ pyReprList rest

/-- Comma-separated reprs of dict entries. -/
def pyReprFields : List (String × Json) → String
  | [] => ""
  | [(k, v)] => sq ++ k ++ sq ++ ": " ++ pyRepr v
  | (k, v) :: rest => sq ++ k ++ sq ++ ": " ++ pyRepr v ++ ", " ++ pyReprFields rest

end

/-- Python `str()` of a JSON value: strings render as themselves, every
other value renders as its repr.  Used both by `str(...)` on line 58 of
main.py and by f-string interpolation. -/
def pyStr : Json → String
  | .str s => s
  | j => pyRepr j

/-- Python `dict.get(key, default)` on an association list. -/
def lookupD (fields : List (String × Json)) (key : String) (dflt : Json) : Json :=
  match fields.lookup key with
  | some v => v
  | none => dflt

/-- Field lookup inside a JSON object (none when the value is not an
object or the key is absent). -/
def jsonLookup (j : Json) (key : String) : Option Json :=
  match j with
  | .obj fields => fields.lookup key
  | _ => none

/-- Message of the Python AttributeError raised by `x.get(...)` when `x`
is not a dict. -/
def attributeErrorMsg (typeName attrName : String) : String :=
  sq ++ typeName ++ sq ++ " object has no attribute " ++ sq ++ attrName ++ sq

/-- Python `str()` of `KeyError("Missing 'ticket' data in request.")`:
str of a KeyError is the repr of its argument, and repr of a string
containing a single quote uses double quotes. -/
def missingTicketKeyStr : String :=
  "\"Missing " ++ sq ++ "ticket" ++ sq ++ " data in request.\""

/-- Outcome of the single `client.post` call, as seen by the handler:
a timeout (an httpx.TimeoutException, which is an httpx.RequestError),
another transport-level httpx.RequestError, or an HTTP response with the
given status code (on which `raise_for_status` is called). -/
inductive Outcome where
  | timeout (msg : String)
  | transportError (msg : String)
  | httpResponse (status : Nat)

/-- One outbound HTTP POST issued by the handler. -/
structure OutboundCall where
  url : String
  payload : Json
  headers : List (String × String)

/-- An inbound request: its headers and the result of `request.json()`.
`Except.error msg` models the body not being valid JSON, in which case
`request.json()` raises json.JSONDecodeError whose str is `msg`. -/
structure InRequest where
  headers : List (String × String)
  body : Except String Json

/-- The JSONResponse returned by the handler together with the trace of
outbound calls made to the Telex webhook during the request. -/
structure HandlerResult where
  status : Nat
  content : Json
  outboundCalls : List OutboundCall

/-- TELEX_WEBHOOK_URL from main.py line 37. -/
def telexWebhookUrl (channelId : String) : String :=
  "https://ping.telex.im/v1/webhooks/" ++ channelId

/-- The headers of the outbound POST (main.py lines 94 to 97). -/
def acceptJsonHeaders : List (String × String) :=
  [("Accept", "application/json"), ("Content-Type", "application/json")]

/-- The message text built by the f-string on main.py line 79, given the
already-stringified field values. -/
def ticketText (ticket_id subject status priority requester_email : String) : String :=
  "🎫 **Ticket #" ++ ticket_id ++ " Updated!**\n📌 **Subject:** " ++ subject ++
    "\n🔘 **Status:** " ++ status ++ "\n⚡ **Priority:** " ++ priority ++
    "\n👤 **Requester:** " ++ requester_email

/-- The telex_payload dict built on main.py lines 76 to 81. -/
def mkTelexPayload (text : String) : Json :=
  .obj [("event", .str "message"), ("data", .obj [("text", .str text)])]

/-- A JSONResponse body of the form given to the error branches. -/
def errorContent (msg : String) : Json :=
  .obj [("error", .str msg)]

/-- Ticket fields extracted on main.py lines 57 to 63.  `ticket_id` has
already been passed through `str(...)`; the other four keep their raw
JSON value and are stringified at f-string interpolation time. -/
structure Extracted where
  ticket_id : String
  subject : Json
  requester_email : Json
  status : Json
  priority : Json

/-- Field extraction (main.py lines 57 to 63) from a ticket dict.
`requester.get("email", ...)` raises AttributeError when the requester
value is present but not a dict; every missing field is silently
replaced by its default. -/
def extractTicketFields (tfields : List (String × Json)) : Except String Extracted :=
  let ticket_id := pyStr (lookupD tfields "id" (.str "Unknown"))
  let requester := lookupD tfields "requester" (.obj [])
  let subject := lookupD tfields "subject" (.str "No Subject")
  match requester with
  | .obj rfields =>
    let requester_email := lookupD rfields "email" (.str "Unknown")
    let status := lookupD tfields "status" (.str "Unknown")
    let priority := lookupD tfields "priority" (.str "Unknown")
    .ok ⟨ticket_id, subject, requester_email, status, priority⟩
  | other => .error (attributeErrorMsg (pyTypeName other) "get")

/-- Message of the httpx.HTTPStatusError raised by `raise_for_status`
for a non-2xx response (reason phrase omitted). -/
def httpStatusErrorStr (status : Nat) (url : String) : String :=
  (if status < 200 then "Informational response"
   else if status < 400 then "Redirect response"
   else if status < 500 then "Client error" else "Server error") ++
    " " ++ sq ++ toString status ++ sq ++ " for url " ++ sq ++ url ++ sq

/-- The outbound call built on main.py lines 76 to 99 from the extracted
ticket fields: the telex_payload around the f-string text, POSTed to
TELEX_WEBHOOK_URL with JSON headers. -/
def mkCall (channelId : String) (ex : Extracted) : OutboundCall :=
  ⟨telexWebhookUrl channelId,
   mkTelexPayload (ticketText ex.ticket_id (pyStr ex.subject) (pyStr ex.status)
     (pyStr ex.priority) (pyStr ex.requester_email)),
   acceptJsonHeaders⟩

/-- Response construction after the `client.post` call (main.py lines
91 to 124): an httpx.RequestError (timeout included) is caught on line
116 and answered with 500; a non-2xx response makes `raise_for_status`
raise httpx.HTTPStatusError, which is not an httpx.RequestError and so
lands in the generic `except Exception` branch (500); a 2xx response
yields the 200 acknowledgement of lines 106 to 109. -/
def postResult (channelId : String) (call : OutboundCall) : Outcome → HandlerResult
  | .timeout msg =>
    ⟨500, errorContent ("Failed to send request to Telex: " ++ msg), [call]⟩
  | .transportError msg =>
    ⟨500, errorContent ("Failed to send request to Telex: " ++ msg), [call]⟩
  | .httpResponse st =>
    if 200 ≤ st && st < 300 then
      ⟨200, .obj [("message", .str "Sent to Telex"), ("telex_payload", call.payload)], [call]⟩
    else
      ⟨500, errorContent
        ("Unexpected error: " ++ httpStatusErrorStr st (telexWebhookUrl channelId)), [call]⟩

/-- The endpoint handler `zendesk_integration` of main.py lines 39 to
124.  `deliver` is the network oracle for the single `client.post` to
the Telex webhook; the result records the JSONResponse and the outbound
calls made.  Branches: a JSON decode failure or any AttributeError from
`.get` on a non-dict falls into the generic `except Exception` branch
(500); a falsy `ticket` value raises KeyError, caught on line 111 (400);
the delivery outcome is mapped by `postResult`. -/
def zendesk_integration (channelId : String) (deliver : OutboundCall → Outcome)
    (req : InRequest) : HandlerResult :=
  match req.body with
  | .error decodeMsg =>
    ⟨500, errorContent ("Unexpected error: " ++ decodeMsg), []⟩
  | .ok data =>
    match data with
    | .obj dfields =>
      if pyTruthy (lookupD dfields "ticket" (.obj [])) then
        match lookupD dfields "ticket" (.obj []) with
        | .obj tfields =>
          match extractTicketFields tfields with
          | .error emsg => ⟨500, errorContent ("Unexpected error: " ++ emsg), []⟩
          | .ok ex =>
            postResult channelId (mkCall channelId ex) (deliver (mkCall channelId ex))
        | other =>
          ⟨500, errorContent ("Unexpected error: " ++ attributeErrorMsg (pyTypeName other) "get"), []⟩
      else
        ⟨400, errorContent ("Missing key in request data: " ++ missingTicketKeyStr), []⟩
    | other =>
      ⟨500, errorContent ("Unexpected error: " ++ attributeErrorMsg (pyTypeName other) "get"), []⟩

/-- The valid sample body from the end-to-end scenario of the spec. -/
def sampleTicketJson : Json :=
  .obj [("ticket", .obj
    [("id", .num 42), ("subject", .str "Login broken"), ("status", .str "open"),
     ("priority", .str "high"), ("requester", .obj [("email", .str "a@b.com")])])]

/-- A network oracle whose upstream always answers 200. -/
def okDeliver : OutboundCall → Outcome := fun _ => .httpResponse 200

/-- A network oracle whose upstream always times out. -/
def timeoutDeliver : OutboundCall → Outcome := fun _ => .timeout "timed out"

/-- A network oracle whose upstream always fails with a non-timeout
transport error. -/
def refusedDeliver : OutboundCall → Outcome := fun _ => .transportError "Connection refused"

/-- A body whose ticket object carries an unknown status value and no
other field. -/
def bogusTicketJson : Json :=
  .obj [("ticket", .obj [("status", .str "bogus")])]

/-- The fields the handler extracts from `sampleTicketJson`. -/
def sampleExtracted : Extracted :=
  ⟨"42", .str "Login broken", .str "a@b.com", .str "open", .str "high"⟩

/-- A dict.get with an absent key returns the default. -/
theorem lookupD_none {fields : List (String × Json)} {key : String}
    (h : fields.lookup key = none) (dflt : Json) : lookupD fields key dflt = dflt := by
  simp [lookupD, h]

/-- The handler never reads the request headers: its result depends only
on the parsed body. -/
theorem handler_ignores_headers (c : String) (d : OutboundCall → Outcome)
    (h1 h2 : List (String × String)) (body : Except String Json) :
    zendesk_integration c d ⟨h1, body⟩ = zendesk_integration c d ⟨h2, body⟩ := by
  cases body <;> rfl

/-- After the outbound post the response status is 200 or 500. -/
theorem postResult_status (c : String) (call : OutboundCall) (o : Outcome) :
    (postResult c call o).status = 200 ∨ (postResult c call o).status = 500 := by
  cases o with
  | timeout m => exact Or.inr rfl
  | transportError m => exact Or.inr rfl
  | httpResponse st =>
    by_cases h : (200 ≤ st && st < 300) = true
    · exact Or.inl (by simp [postResult, h])
    · exact Or.inr (by simp [postResult, h])

/-- Whatever the outcome, `postResult` records exactly the one call that
was made. -/
theorem postResult_calls (c : String) (call : OutboundCall) (o : Outcome) :
    (postResult c call o).outboundCalls = [call] := by
  cases o with
  | timeout m => rfl
  | transportError m => rfl
  | httpResponse st =>
    by_cases h : (200 ≤ st && st < 300) = true
    · simp [postResult, h]
    · simp [postResult, h]

/-- A non-2xx response is answered with 500. -/
theorem postResult_non2xx (c : String) (call : OutboundCall) (st : Nat)
    (h : ¬(200 ≤ st ∧ st < 300)) :
    (postResult c call (.httpResponse st)).status = 500 := by
  have hb : ¬((200 ≤ st && st < 300) = true) := by simpa using h
  simp [postResult, hb]

/-- The handler only ever answers 200, 400 or 500. -/
theorem handler_status_cases (c : String) (d : OutboundCall → Outcome) (r : InRequest) :
    (zendesk_integration c d r).status = 200 ∨ (zendesk_integration c d r).status = 400 ∨
      (zendesk_integration c d r).status = 500 := by
  unfold zendesk_integration
  repeat' split
  all_goals first
    | exact Or.inr (Or.inr rfl)
    | exact Or.inr (Or.inl rfl)
    | exact (postResult_status c _ _).elim Or.inl (fun h => Or.inr (Or.inr h))

/-- Every run makes no outbound call, or exactly the one call built by
`mkCall` from the extracted fields. -/
theorem handler_calls_shape (c : String) (d : OutboundCall → Outcome) (r : InRequest) :
    (zendesk_integration c d r).outboundCalls = [] ∨
      ∃ ex : Extracted, (zendesk_integration c d r).outboundCalls = [mkCall c ex] := by
  unfold zendesk_integration
  repeat' split
  all_goals first
    | exact Or.inl rfl
    | exact Or.inr ⟨_, postResult_calls c _ _⟩

/-- Claim C1 counterexample: a request carrying the valid sample body
but NO signature header is fully processed: the handler answers 200 (not
401) and makes the outbound call to the chat platform. -/
theorem c1_counterexample :
    (zendesk_integration "chan" okDeliver ⟨[], .ok sampleTicketJson⟩).status = 200 ∧
    (zendesk_integration "chan" okDeliver ⟨[], .ok sampleTicketJson⟩).outboundCalls.length = 1 :=
  ⟨rfl, rfl⟩

/-- Claim C1 (amended): the handler performs no signature verification
at all — its result is independent of the request headers, it never
answers 401, and a request with a valid body and no signature header is
processed normally (outbound call made, 200 on delivery success). -/
theorem c1_no_signature_verification (c : String) (d : OutboundCall → Outcome)
    (headers : List (String × String)) (body : Except String Json) :
    zendesk_integration c d ⟨headers, body⟩ = zendesk_integration c d ⟨[], body⟩ ∧
    (zendesk_integration c d ⟨headers, body⟩).status ≠ 401 ∧
    (zendesk_integration c okDeliver ⟨headers, .ok sampleTicketJson⟩).status = 200 ∧
    (zendesk_integration c okDeliver ⟨headers, .ok sampleTicketJson⟩).outboundCalls.length = 1 := by
  refine ⟨handler_ignores_headers c d headers [] body, ?_, rfl, rfl⟩
  rcases handler_status_cases c d ⟨headers, body⟩ with h | h | h <;> omega

/-- Claim C2 counterexample: with an upstream that always times out, the
handler makes exactly ONE outbound attempt (not 3) and answers 500. -/
theorem c2_counterexample :
    (zendesk_integration "chan" timeoutDeliver ⟨[], .ok sampleTicketJson⟩).outboundCalls.length = 1 ∧
    (1 : Nat) ≠ 3 ∧
    (zendesk_integration "chan" timeoutDeliver ⟨[], .ok sampleTicketJson⟩).status = 500 :=
  ⟨rfl, by decide, rfl⟩

/-- Claim C2 (amended): the delivery code makes at most one attempt per
request — there is no retry loop and no backoff; when the upstream times
out the single attempt fails and the handler answers 500. -/
theorem c2_single_attempt (c : String) (d : OutboundCall → Outcome) (r : InRequest) :
    (zendesk_integration c d r).outboundCalls.length ≤ 1 ∧
    (zendesk_integration c timeoutDeliver ⟨[], .ok sampleTicketJson⟩).outboundCalls.length = 1 ∧
    (zendesk_integration c timeoutDeliver ⟨[], .ok sampleTicketJson⟩).status = 500 := by
  refine ⟨?_, rfl, rfl⟩
  rcases handler_calls_shape c d r with h | ⟨ex, h⟩ <;> simp [h]

/-- Claim C3 counterexample: a payload whose ticket has only
status "bogus" — so it is missing id, subject and requester.email and
carries an unknown status enum value — is NOT rejected with 400: the
handler coerces the missing fields to defaults, accepts the bogus
status, makes the outbound call and answers 200. -/
theorem c3_counterexample :
    (zendesk_integration "chan" okDeliver ⟨[], .ok bogusTicketJson⟩).status = 200 ∧
    (zendesk_integration "chan" okDeliver ⟨[], .ok bogusTicketJson⟩).outboundCalls.length = 1 :=
  ⟨rfl, rfl⟩

/-- Claim C3 (amended): the parser is lenient — only a missing or falsy
`ticket` value is rejected (400); missing id, subject, status,
requester and requester.email are silently coerced to the defaults
"Unknown" and "No Subject", and unknown status or priority enum values
are passed through unvalidated (the bogus-status body is accepted with
200). -/
theorem c3_lenient_defaults (tfields : List (String × Json))
    (hid : tfields.lookup "id" = none) (hreq : tfields.lookup "requester" = none)
    (hsub : tfields.lookup "subject" = none) (hstat : tfields.lookup "status" = none)
    (hpri : tfields.lookup "priority" = none) :
    extractTicketFields tfields =
      .ok ⟨"Unknown", .str "No Subject", .str "Unknown", .str "Unknown", .str "Unknown"⟩ ∧
    (zendesk_integration "chan" okDeliver ⟨[], .ok bogusTicketJson⟩).status = 200 := by
  refine ⟨?_, rfl⟩
  simp only [extractTicketFields, lookupD_none hid, lookupD_none hreq, lookupD_none hsub,
    lookupD_none hstat, lookupD_none hpri]
  rfl

/-- Claim C3 witness: `c3_lenient_defaults` applied to the concrete
ticket dict holding only an unrelated key. -/
theorem c3_lenient_defaults_witness :
    extractTicketFields [("foo", .num 1)] =
      .ok ⟨"Unknown", .str "No Subject", .str "Unknown", .str "Unknown", .str "Unknown"⟩ ∧
    (zendesk_integration "chan" okDeliver ⟨[], .ok bogusTicketJson⟩).status = 200 :=
  c3_lenient_defaults [("foo", .num 1)] rfl rfl rfl rfl rfl

/-- Claim C4 counterexample: a terminal delivery timeout is answered
with 500 (not 504), and a non-timeout transport failure is also answered
with 500 (not 502). -/
theorem c4_counterexample :
    (zendesk_integration "chan" timeoutDeliver ⟨[], .ok sampleTicketJson⟩).status = 500 ∧
    (500 : Nat) ≠ 504 ∧
    (zendesk_integration "chan" refusedDeliver ⟨[], .ok sampleTicketJson⟩).status = 500 ∧
    (500 : Nat) ≠ 502 :=
  ⟨rfl, by decide, rfl, by decide⟩

/-- Claim C4 (amended): every delivery failure — timeout, other
transport error, or non-2xx upstream response — is mapped to HTTP 500;
the handler never distinguishes 504 from 502. -/
theorem c4_delivery_failures_500 (c msg : String) (st : Nat) (h : ¬(200 ≤ st ∧ st < 300)) :
    (zendesk_integration c (fun _ => .timeout msg) ⟨[], .ok sampleTicketJson⟩).status = 500 ∧
    (zendesk_integration c (fun _ => .transportError msg) ⟨[], .ok sampleTicketJson⟩).status = 500 ∧
    (zendesk_integration c (fun _ => .httpResponse st) ⟨[], .ok sampleTicketJson⟩).status = 500 := by
  refine ⟨rfl, rfl, ?_⟩
  exact postResult_non2xx c (mkCall c sampleExtracted) st h

/-- Claim C4 witness: `c4_delivery_failures_500` at concrete timeout and
connection-refused messages and the non-2xx status 404. -/
theorem c4_delivery_failures_500_witness :
    (zendesk_integration "chan" (fun _ => .timeout "timed out")
      ⟨[], .ok sampleTicketJson⟩).status = 500 ∧
    (zendesk_integration "chan" (fun _ => .transportError "Connection refused")
      ⟨[], .ok sampleTicketJson⟩).status = 500 ∧
    (zendesk_integration "chan" (fun _ => .httpResponse 404)
      ⟨[], .ok sampleTicketJson⟩).status = 500 :=
  c4_delivery_failures_500 "chan" "timed out" 404 (by decide)

/-- Claim C5 counterexample: for the unclassified failure raised by a
body that is a bare number (`.get` on a non-dict), the 500 response body
carries the full Python exception text of the AttributeError — the
detailed cause is returned to the caller, not kept server-side. -/
theorem c5_counterexample :
    (zendesk_integration "chan" okDeliver ⟨[], .ok (.num 3)⟩).status = 500 ∧
    (zendesk_integration "chan" okDeliver ⟨[], .ok (.num 3)⟩).content =
      errorContent ("Unexpected error: " ++ attributeErrorMsg "int" "get") :=
  ⟨rfl, rfl⟩

/-- Claim C5 (amended): every unclassified failure is answered with 500
whose body embeds the exception text `str(e)` after the prefix
"Unexpected error: " — the detailed cause (JSON decode error message,
AttributeError message) is sent to the caller rather than only logged
server-side. -/
theorem c5_error_detail_in_body (c : String) (d : OutboundCall → Outcome)
    (headers : List (String × String)) (decodeMsg : String) :
    (zendesk_integration c d ⟨headers, .error decodeMsg⟩).status = 500 ∧
    (zendesk_integration c d ⟨headers, .error decodeMsg⟩).content =
      errorContent ("Unexpected error: " ++ decodeMsg) ∧
    (zendesk_integration c d ⟨headers, .ok (.num 3)⟩).content =
      errorContent ("Unexpected error: " ++ attributeErrorMsg "int" "get") :=
  ⟨rfl, rfl, rfl⟩

/-- Claim C6 counterexample: the outbound payload built for the valid
sample body has no `channel` field at all — it is exactly
the object with the fields event and data. -/
theorem c6_counterexample :
    (zendesk_integration "chan" okDeliver ⟨[], .ok sampleTicketJson⟩).outboundCalls =
      [mkCall "chan" sampleExtracted] ∧
    jsonLookup (mkCall "chan" sampleExtracted).payload "channel" = none ∧
    jsonLookup (mkCall "chan" sampleExtracted).payload "event" = some (.str "message") :=
  ⟨rfl, rfl, rfl⟩

/-- Claim C6 (amended): every outbound call the handler makes is a POST
to `chatWebhookBaseUrl/channelId` with headers Accept: application/json
and Content-Type: application/json, whose JSON body has exactly the
shape with fields event: "message" and data: with text — and NO
`channel` field. -/
theorem c6_outbound_shape (c : String) (d : OutboundCall → Outcome) (r : InRequest)
    (call : OutboundCall) (h : call ∈ (zendesk_integration c d r).outboundCalls) :
    call.url = "https://ping.telex.im/v1/webhooks/" ++ c ∧
    call.headers = [("Accept", "application/json"), ("Content-Type", "application/json")] ∧
    (∃ text, call.payload = mkTelexPayload text) ∧
    jsonLookup call.payload "channel" = none := by
  rcases handler_calls_shape c d r with h0 | ⟨ex, h0⟩
  · rw [h0] at h
    cases h
  · rw [h0] at h
    have hc : call = mkCall c ex := by simpa using h
    subst hc
    exact ⟨rfl, rfl, ⟨_, rfl⟩, rfl⟩

/-- Claim C6 witness: `c6_outbound_shape` at the call actually made for
the valid sample body. -/
theorem c6_outbound_shape_witness :
    (mkCall "chan" sampleExtracted).url = "https://ping.telex.im/v1/webhooks/" ++ "chan" ∧
    (mkCall "chan" sampleExtracted).headers =
      [("Accept", "application/json"), ("Content-Type", "application/json")] ∧
    (∃ text, (mkCall "chan" sampleExtracted).payload = mkTelexPayload text) ∧
    jsonLookup (mkCall "chan" sampleExtracted).payload "channel" = none :=
  c6_outbound_shape "chan" okDeliver ⟨[], .ok sampleTicketJson⟩ (mkCall "chan" sampleExtracted)
    (by rw [show (zendesk_integration "chan" okDeliver ⟨[], .ok sampleTicketJson⟩).outboundCalls =
          [mkCall "chan" sampleExtracted] from rfl]
        exact List.mem_singleton.mpr rfl)

/-- Claim C7 (confirmed): the message formatter is a total function of
the five rendered field values and its output contains the ticket id,
subject, status, priority and requester email, in that fixed order. -/
theorem c7_formatter_field_order (tid subj st pr em : String) :
    ∃ s1 s2 s3 s4 s5 : String, ticketText tid subj st pr em =
      s1 ++ tid ++ s2 ++ subj ++ s3 ++ st ++ s4 ++ pr ++ s5 ++ em :=
  ⟨"🎫 **Ticket #", " Updated!**\n📌 **Subject:** ", "\n🔘 **Status:** ",
   "\n⚡ **Priority:** ", "\n👤 **Requester:** ", rfl⟩

/-- Claim C8 counterexample: a ticket without a priority field is
rendered with priority "Unknown", not "Not set". -/
theorem c8_counterexample :
    extractTicketFields [("id", .num 7), ("subject", .str "s"), ("status", .str "open"),
        ("requester", .obj [("email", .str "e@x.com")])] =
      .ok ⟨"7", .str "s", .str "e@x.com", .str "open", .str "Unknown"⟩ ∧
    pyStr (.str "Unknown") = "Unknown" ∧ ("Unknown" : String) ≠ "Not set" :=
  ⟨rfl, rfl, by decide⟩

/-- Claim C8 (amended): whenever the ticket dict has no priority key,
the extracted priority is the string "Unknown" (rendered as "Unknown"),
which is distinct from every priority enum value low, normal, high and
urgent — but it is "Unknown", not the "Not set" the claim states. -/
theorem c8_absent_priority_unknown (tfields : List (String × Json)) (ex : Extracted)
    (hpri : tfields.lookup "priority" = none)
    (hex : extractTicketFields tfields = .ok ex) :
    ex.priority = .str "Unknown" ∧ pyStr ex.priority = "Unknown" ∧
    ("Unknown" : String) ≠ "low" ∧ ("Unknown" : String) ≠ "normal" ∧
    ("Unknown" : String) ≠ "high" ∧ ("Unknown" : String) ≠ "urgent" := by
  have h1 : ex.priority = .str "Unknown" := by
    simp only [extractTicketFields] at hex
    split at hex
    · injection hex with h
      subst h
      simp [lookupD_none hpri]
    · simp at hex
  refine ⟨h1, by rw [h1]; rfl, by decide, by decide, by decide, by decide⟩

/-- Claim C8 witness: `c8_absent_priority_unknown` at the concrete
priority-less ticket dict. -/
theorem c8_absent_priority_unknown_witness :
    (⟨"7", .str "s", .str "e@x.com", .str "open", .str "Unknown"⟩ : Extracted).priority =
      .str "Unknown" ∧
    pyStr (⟨"7", .str "s", .str "e@x.com", .str "open", .str "Unknown"⟩ : Extracted).priority =
      "Unknown" ∧
    ("Unknown" : String) ≠ "low" ∧ ("Unknown" : String) ≠ "normal" ∧
    ("Unknown" : String) ≠ "high" ∧ ("Unknown" : String) ≠ "urgent" :=
  c8_absent_priority_unknown
    [("id", .num 7), ("subject", .str "s"), ("status", .str "open"),
     ("requester", .obj [("email", .str "e@x.com")])]
    ⟨"7", .str "s", .str "e@x.com", .str "open", .str "Unknown"⟩ rfl rfl

/-- Claim C9 (confirmed): a request whose body is the object with the
single field ticket mapped to an empty object — whatever its headers, a
correctly signed one included — is answered with 400 and no outbound
call is made (the empty dict is falsy, so the handler raises KeyError
before reaching the post). -/
theorem c9_empty_ticket_400 (c : String) (d : OutboundCall → Outcome)
    (headers : List (String × String)) :
    (zendesk_integration c d ⟨headers, .ok (.obj [("ticket", .obj [])])⟩).status = 400 ∧
    (zendesk_integration c d ⟨headers, .ok (.obj [("ticket", .obj [])])⟩).outboundCalls = [] :=
  ⟨rfl, rfl⟩

/-- Claim C10 (confirmed): a request whose body is not valid JSON makes
`request.json()` raise json.JSONDecodeError, which is caught by the
generic `except Exception` branch: the handler answers 500 (not 400) and
makes no outbound call. -/
theorem c10_invalid_json_500 (c : String) (d : OutboundCall → Outcome)
    (headers : List (String × String)) (decodeMsg : String) :
    (zendesk_integration c d ⟨headers, .error decodeMsg⟩).status = 500 ∧
    (500 : Nat) ≠ 400 ∧
    (zendesk_integration c d ⟨headers, .error decodeMsg⟩).outboundCalls = [] :=
  ⟨rfl, by decide, rfl⟩

end TelexZendesk
